import Mathlib

/-!
Shallow embedding of the USB gadget-zero device driver (`zero.c`): the
control-request dispatcher (`zero_setup`), the descriptor serialization
(`config_buf`, the device descriptor), the endpoint lifecycle functions
(`zero_set_config`, `set_loopback_config`, `zero_reset_config`,
`zero_disconnect`), the bulk-transfer completion handler
(`source_sink_complete`) and the blocking read path (`usb_zero_read`).

External side effects (logging, freeing a request, waking the wait queue,
queueing a request) are made explicit as an `Effect` trace.  Results of
external transport calls (`usb_ep_enable`, `usb_ep_queue`) and the values
the bind path writes into the descriptor catalog at runtime
(`bcdDevice`, `bMaxPacketSize0`, the autoconfigured endpoint address and
packet size, the formatted manufacturer string) are parameters collected
in `Env`.
-/

namespace GadgetZero

/-- Linux errno values used by `zero.c` (stored as the positive magnitude;
the driver returns their negations). -/
def EFAULT : Int := 14

def EINVAL : Int := 22

def EOVERFLOW : Int := 75

def EOPNOTSUPP : Int := 95

def ECONNABORTED : Int := 103

def ECONNRESET : Int := 104

def ESHUTDOWN : Int := 108

def EREMOTEIO : Int := 121

/-- USB constants from `ch9.h` used by `zero.c`. -/
def USB_DIR_IN : Nat := 0x80

def USB_REQ_GET_DESCRIPTOR : Nat := 6

def USB_REQ_SET_CONFIGURATION : Nat := 9

def USB_DT_DEVICE : Nat := 1

def USB_DT_CONFIG : Nat := 2

def USB_DT_STRING : Nat := 3

/-- The `#define CONFIG_LOOPBACK 2` constant. -/
def CONFIG_LOOPBACK : Nat := 2

/-- The `#define USB_BUFSIZ 256` constant. -/
def USB_BUFSIZ : Nat := 256

/-- Model of `struct usb_request` as seen by the completion handler:
the owned buffer, the requested length, the actual transferred length
and the completion status. -/
structure UsbRequest where
  buf : List Nat
  length : Nat
  actual : Nat
  status : Int
  deriving DecidableEq

/-- Model of `struct zero_dev`: the endpoint reference `out_ep`
(`none` once cleared by `zero_reset_config`), whether the endpoint is
currently enabled on the controller, and the shared receive buffer
`data[128]` with its `data_size` field.  The spinlock and wait queue
are reflected in the explicit effect traces, not stored here. -/
structure ZeroDev where
  out_ep : Option Nat
  epEnabled : Bool
  data : List Nat
  data_size : Nat
  deriving DecidableEq

/-- Observable side effects of the driver code: a `printk`, a
`free_ep_req`, a `wake_up_interruptible` on the wait queue, and a
`usb_ep_queue` submission. -/
inductive Effect where
  | log : Effect
  | freeReq : Effect
  | wake : Effect
  | submit : Effect
  deriving DecidableEq

/-- Runtime parameters: values written into the catalog by `zero_bind`
and `usb_ep_autoconfig` plus the outcomes of the external transport
calls (`usb_ep_enable` inside `set_loopback_config`, `usb_ep_queue` on
ep0 inside `zero_setup`). -/
structure Env where
  bcdDevice : Nat
  bMaxPacketSize0 : Nat
  epAddr : Nat
  epMaxPacket : Nat
  manufacturer : List Nat
  enableResult : Int
  queueResult : Int

/-- Model of `source_sink_complete`: classify `req->status`; on normal completion
of the out endpoint `memcpy` the `actual` received bytes into
`dev->data` and record `dev->data_size = req->actual`; the
"gone" statuses and the overflow/default arm only log; `-EREMOTEIO`
(short read) does nothing.  In every case the function then frees the
request (`free_ep_req`) and wakes the wait queue, in that order. -/
def source_sink_complete (epIsOut : Bool) (dev : ZeroDev) (req : UsbRequest) :
    ZeroDev × List Effect :=
  let classified : ZeroDev × List Effect :=
    if req.status = 0 then
      if epIsOut then
        ({ dev with data := req.buf.take req.actual ++ dev.data.drop req.actual,
                    data_size := req.actual }, [])
      else (dev, [])
    else if req.status = -ECONNABORTED ∨ req.status = -ECONNRESET ∨
            req.status = -ESHUTDOWN then
      (dev, [Effect.log])
    else if req.status = - EREMOTEIO then
      (dev, [])
    else
      (dev, [Effect.log])
  (classified.1, classified.2 ++ [Effect.freeReq, Effect.wake])

/-- Model of `zero_reset_config`: disable the endpoint and clear the reference. -/
def zero_reset_config (dev : ZeroDev) : ZeroDev :=
  { dev with epEnabled := false, out_ep := none }

/-- Model of `set_loopback_config`: calls `usb_ep_enable(ep, &fs_sink_desc)` and
returns its result, logging either "connected" or the failure.  The
enable outcome is the environment parameter `enableResult`. -/
def set_loopback_config (enableResult : Int) (dev : ZeroDev) : Int × ZeroDev :=
  if enableResult = 0 then (0, { dev with epEnabled := true })
  else (enableResult, dev)

/-- Model of `zero_set_config(dev, number)`: calls `set_loopback_config` and, when
that fails, `zero_reset_config`.  Note that the source never reads
`number`: the requested configuration value does not influence the
behaviour. -/
def zero_set_config (enableResult : Int) (dev : ZeroDev) (number : Nat) :
    Int × ZeroDev :=
  let r := set_loopback_config enableResult dev
  if r.1 ≠ 0 then (r.1, zero_reset_config r.2)
  else (r.1, r.2)

/-- Model of `zero_disconnect`: the entire teardown body is compiled out
(`#if 0` around `unregister_chrdev_region`, `cdev_del` and
`zero_reset_config`); only the `printk` of the pointers remains. -/
def zero_disconnect (dev : ZeroDev) : ZeroDev × List Effect :=
  (dev, [Effect.log])

/-- Little-endian serialization of a 16-bit value, as the wire layout
of `__le16` descriptor fields. -/
def le16 (x : Nat) : List Nat :=
  [x % 256, x / 256 % 256]

/-- Byte serialization of `device_desc` (18 bytes): bLength 18,
bDescriptorType USB_DT_DEVICE, bcdUSB 0x0110, bDeviceClass
USB_CLASS_VENDOR_SPEC (0xff), sub-class and protocol 0,
bMaxPacketSize0 and bcdDevice written by `zero_bind`, idVendor 0xefef,
idProduct 0x0036, iManufacturer 25, iProduct 42, iSerialNumber 101,
bNumConfigurations 1. -/
def device_desc_bytes (env : Env) : List Nat :=
  [18, USB_DT_DEVICE] ++ le16 0x0110 ++ [0xff, 0, 0, env.bMaxPacketSize0] ++
    le16 0xefef ++ le16 0x0036 ++ le16 env.bcdDevice ++ [25, 42, 101, 1]

/-- Byte serialization of `loopback_intf` (9 bytes): one endpoint,
vendor-specific class, iInterface STRING_LOOPBACK (249). -/
def loopback_intf_bytes : List Nat :=
  [9, 4, 0, 0, 1, 0xff, 0, 0, 249]

/-- Byte serialization of `fs_sink_desc` (7 bytes): a bulk endpoint
whose address and wMaxPacketSize are filled in at bind time by
`usb_ep_autoconfig` (environment parameters). -/
def fs_sink_desc_bytes (env : Env) : List Nat :=
  [7, 5, env.epAddr, 2] ++ le16 env.epMaxPacket ++ [0]

/-- Byte serialization of the `loopback_config` 9-byte header with the
given descriptor type and total length: bNumInterfaces 1,
bConfigurationValue CONFIG_LOOPBACK (2), iConfiguration
STRING_LOOPBACK (249), bmAttributes ONE|SELFPOWER (0xc0),
bMaxPower 1. -/
def config_header_bytes (dtype total : Nat) : List Nat :=
  [9, dtype] ++ le16 total ++ [1, CONFIG_LOOPBACK, 249, 0xc0, 1]

/-- Modelled from the spec: `usb_gadget_config_buf` lives in `config.c`,
which `zero.c` includes but which is not among the repository sources.
Per the spec it serializes the configuration header followed by each
descriptor of the function's descriptor list in declared order
(`fs_loopback_function` = interface, then sink endpoint), computes the
header's total-length field as the running sum of all emitted
descriptor lengths, and fails with a negative "no space" result when
the bounded buffer would overflow (no partial descriptor written). -/
def usb_gadget_config_buf (env : Env) (bufsize : Nat) : Int × List Nat :=
  let rest := loopback_intf_bytes ++ fs_sink_desc_bytes env
  let total := 9 + rest.length
  if bufsize < total then (-EINVAL, [])
  else ((total : Int), config_header_bytes USB_DT_CONFIG total ++ rest)

/-- Model of `config_buf`: serialize the configuration via
`usb_gadget_config_buf` into the `USB_BUFSIZ` buffer and overwrite the
emitted header's descriptor-type byte with the caller-requested type.
The index argument is accepted but unused, as in the source. -/
def config_buf (env : Env) (dtype : Nat) (index : Nat) : Int × List Nat :=
  let r := usb_gadget_config_buf env USB_BUFSIZ
  if r.1 < 0 then r
  else (r.1, r.2.set 1 dtype)

/-- The static string table of `zero.c` as byte lists (`usb_string`
entries keyed by id): 25 manufacturer (formatted at bind time, an
environment parameter), 42 longname, 101 serial, 249 loopback,
248 source_sink. -/
def lookupString (env : Env) (id : Nat) : Option (List Nat) :=
  if id = 25 then some env.manufacturer
  else if id = 42 then
    some ((['G', 'a', 'd', 'g', 'e', 't', ' ', 'Z', 'e', 'r', 'o']).map Char.toNat)
  else if id = 101 then
    some ((['0', '1', '2', '3', '4', '5', '6', '7', '8', '9', '.',
            '0', '1', '2', '3', '4', '5', '6', '7', '8', '9', '.',
            '0', '1', '2', '3', '4', '5', '6', '7', '8', '9']).map Char.toNat)
  else if id = 249 then
    some ((['l', 'o', 'o', 'p', ' ', 'i', 'n', 'p', 'u', 't', ' ',
            't', 'o', ' ', 'o', 'u', 't', 'p', 'u', 't']).map Char.toNat)
  else if id = 248 then
    some ((['s', 'o', 'u', 'r', 'c', 'e', ' ', 'a', 'n', 'd', ' ',
            's', 'i', 'n', 'k', ' ', 'd', 'a', 't', 'a']).map Char.toNat)
  else none

/-- UTF-16LE encoding of a list of code points (all table entries are
ASCII, so each code point becomes two bytes, low byte first). -/
def utf16le : List Nat → List Nat
  | [] => []
  | c :: cs => c % 256 :: c / 256 % 256 :: utf16le cs

/-- Modelled from the spec: `usb_gadget_get_string` lives in
`usbstring.c`, which `zero.c` includes but which is not among the
repository sources.  Per the spec it encodes the string found at the
numeric index as a USB string descriptor (2-byte header, then UTF-16LE
code units) and returns the byte count; index 0 is the language-ID
list for the table's language 0x0409; an unknown index yields a
negative "not found". -/
def usb_gadget_get_string (env : Env) (index : Nat) : Int × List Nat :=
  if index = 0 then (4, [4, USB_DT_STRING, 0x09, 0x04])
  else
    match lookupString env index with
    | some s =>
        let payload := utf16le s
        ((2 + payload.length : Nat), (2 + payload.length) :: USB_DT_STRING :: payload)
    | none => (-EINVAL, [])

/-- Model of `struct usb_ctrlrequest` after the `le16_to_cpu`
conversions in `zero_setup`. -/
structure CtrlRequest where
  bRequestType : Nat
  bRequest : Nat
  wValue : Nat
  wIndex : Nat
  wLength : Nat
  deriving DecidableEq

/-- The ep0 data stage queued by `zero_setup`: the bytes actually sent
(the response buffer truncated to `req->length`), the submitted
`req->length`, and the `req->zero` short-packet flag. -/
structure DataStage where
  sent : List Nat
  length : Nat
  zero : Bool
  deriving DecidableEq

/-- Outcome of one `zero_setup` call: the value computed by the
dispatch `switch` (negative means stall), the submitted data stage
(`none` when the device stalls instead), the function's return value
(the `usb_ep_queue` result when a data stage was submitted, else the
negative computed value), and the updated device. -/
structure SetupOut where
  computed : Int
  submitted : Option DataStage
  ret : Int
  dev : ZeroDev
  deriving DecidableEq

/-- The dispatch `switch` of `zero_setup`: classify
(`bRequestType`, `bRequest`, high byte of `wValue`) and produce the
computed value, the response buffer contents, and the updated device.
`value` starts as `-EOPNOTSUPP` and every unhandled arm falls through
to the `unknown` label with it unchanged. -/
def setup_value (env : Env) (dev : ZeroDev) (ctrl : CtrlRequest) :
    Int × List Nat × ZeroDev :=
  if ctrl.bRequest = USB_REQ_GET_DESCRIPTOR then
    if ctrl.bRequestType ≠ USB_DIR_IN then (-EOPNOTSUPP, [], dev)
    else if ctrl.wValue / 256 = USB_DT_DEVICE then
      ((min ctrl.wLength 18 : Nat),
        (device_desc_bytes env).take (min ctrl.wLength 18), dev)
    else if ctrl.wValue / 256 = USB_DT_CONFIG then
      if 0 ≤ (config_buf env (ctrl.wValue / 256) (ctrl.wValue % 256)).1 then
        ((min ctrl.wLength
            (config_buf env (ctrl.wValue / 256) (ctrl.wValue % 256)).1.toNat : Nat),
          (config_buf env (ctrl.wValue / 256) (ctrl.wValue % 256)).2, dev)
      else ((config_buf env (ctrl.wValue / 256) (ctrl.wValue % 256)).1,
        (config_buf env (ctrl.wValue / 256) (ctrl.wValue % 256)).2, dev)
    else if ctrl.wValue / 256 = USB_DT_STRING then
      if 0 ≤ (usb_gadget_get_string env (ctrl.wValue % 256)).1 then
        ((min ctrl.wLength
            (usb_gadget_get_string env (ctrl.wValue % 256)).1.toNat : Nat),
          (usb_gadget_get_string env (ctrl.wValue % 256)).2, dev)
      else ((usb_gadget_get_string env (ctrl.wValue % 256)).1,
        (usb_gadget_get_string env (ctrl.wValue % 256)).2, dev)
    else (-EOPNOTSUPP, [], dev)
  else if ctrl.bRequest = USB_REQ_SET_CONFIGURATION then
    if ctrl.bRequestType ≠ 0 then (-EOPNOTSUPP, [], dev)
    else ((zero_set_config env.enableResult dev ctrl.wValue).1, [],
          (zero_set_config env.enableResult dev ctrl.wValue).2)
  else (-EOPNOTSUPP, [], dev)

/-- Model of `zero_setup`: run the dispatch `switch`; when the computed value is
non-negative, set `req->length = value` and
`req->zero = value < w_length` and queue the response on ep0,
returning the queue result; when it is negative, submit nothing (the
gadget stack stalls ep0) and return the negative value. -/
def zero_setup (env : Env) (dev : ZeroDev) (ctrl : CtrlRequest) : SetupOut :=
  let v := setup_value env dev ctrl
  if 0 ≤ v.1 then
    { computed := v.1,
      submitted := some { sent := v.2.1.take v.1.toNat, length := v.1.toNat,
                          zero := decide (v.1.toNat < ctrl.wLength) },
      ret := env.queueResult,
      dev := v.2.2 }
  else
    { computed := v.1, submitted := none, ret := v.1, dev := v.2.2 }

/-- Outcome of one `usb_zero_read` call: how many receive requests the
call started, the bytes copied toward user space, and the return
value. -/
structure ReadOut where
  startReceives : Nat
  copied : List Nat
  ret : Int
  deriving DecidableEq

/-- Model of `usb_zero_read`: start exactly one receive via
`source_sink_start_ep` (its result is ignored), sleep on `bulkrq`
until a completion runs (`req` and `epIsOut` describe that
asynchronous completion), then `copy_to_user` `dev->data_size` bytes
of `dev->data` and return `data_size`, or `-EFAULT` when the copy
fails.  The `count` argument is never read apart from the dead
`count < 0` check (count is a `size_t`). -/
def usb_zero_read (dev : ZeroDev) (count : Nat) (epIsOut : Bool)
    (req : UsbRequest) (copyFails : Bool) : ReadOut × ZeroDev :=
  if count < 0 then ({ startReceives := 1, copied := [], ret := -EINVAL }, dev)
  else
    let dev1 := (source_sink_complete epIsOut dev req).1
    if copyFails then
      ({ startReceives := 1, copied := dev1.data.take dev1.data_size,
         ret := -EFAULT }, dev1)
    else
      ({ startReceives := 1, copied := dev1.data.take dev1.data_size,
         ret := (dev1.data_size : Int) }, dev1)

/-- A concrete sample environment (enable failing with `-EINVAL`) for
witness instantiations. -/
def sampleEnv : Env :=
  { bcdDevice := 0x9999, bMaxPacketSize0 := 16, epAddr := 1, epMaxPacket := 64,
    manufacturer := [77], enableResult := -EINVAL, queueResult := 0 }

/-- A concrete sample device context for witness instantiations. -/
def sampleDev : ZeroDev :=
  { out_ep := some 1, epEnabled := false, data := [0], data_size := 0 }

/-- A concrete sample control request (device descriptor, maximum
length 8) for witness instantiations. -/
def sampleCtrl : CtrlRequest :=
  { bRequestType := USB_DIR_IN, bRequest := USB_REQ_GET_DESCRIPTOR,
    wValue := 0x0100, wIndex := 0, wLength := 8 }

/-- Evaluation of `source_sink_complete` on a success status. -/
lemma complete_success_eq (epIsOut : Bool) (dev : ZeroDev) (req : UsbRequest)
    (h : req.status = 0) :
    source_sink_complete epIsOut dev req =
      ((if epIsOut then
          { dev with data := req.buf.take req.actual ++ dev.data.drop req.actual,
                     data_size := req.actual }
        else dev), [Effect.freeReq, Effect.wake]) := by
  simp only [source_sink_complete, h]
  split_ifs <;> rfl

/-- Evaluation of `source_sink_complete` on a failure status. -/
lemma complete_error_eq (epIsOut : Bool) (dev : ZeroDev) (req : UsbRequest)
    (h : req.status ≠ 0) :
    source_sink_complete epIsOut dev req =
      (dev,
        (if req.status = -ECONNABORTED ∨ req.status = -ECONNRESET ∨
            req.status = -ESHUTDOWN then [Effect.log]
         else if req.status = - EREMOTEIO then []
         else [Effect.log]) ++ [Effect.freeReq, Effect.wake]) := by
  simp only [source_sink_complete]
  rw [if_neg h]
  split_ifs <;> rfl

/-- C2: for every completion outcome delivered to
`source_sink_complete` (success, aborted, reset, shutdown, overflow,
short read, or any other status), the handler emits exactly one free
of the transfer request and exactly one wake of the wait channel,
both after the classification effects, and never submits (requeues)
the request. -/
theorem complete_frees_and_wakes_once (epIsOut : Bool) (dev : ZeroDev)
    (req : UsbRequest) :
    ((source_sink_complete epIsOut dev req).2 = [Effect.freeReq, Effect.wake] ∨
      (source_sink_complete epIsOut dev req).2 =
        [Effect.log, Effect.freeReq, Effect.wake]) ∧
    (source_sink_complete epIsOut dev req).2.count Effect.freeReq = 1 ∧
    (source_sink_complete epIsOut dev req).2.count Effect.wake = 1 ∧
    (source_sink_complete epIsOut dev req).2.count Effect.submit = 0 := by
  rcases eq_or_ne req.status 0 with h | h
  · rw [complete_success_eq epIsOut dev req h]
    exact ⟨Or.inl rfl, rfl, rfl, rfl⟩
  · rw [complete_error_eq epIsOut dev req h]
    dsimp only
    split_ifs
    · exact ⟨Or.inr rfl, rfl, rfl, rfl⟩
    · exact ⟨Or.inl rfl, rfl, rfl, rfl⟩
    · exact ⟨Or.inr rfl, rfl, rfl, rfl⟩

/-- C3: a bulk receive on the out endpoint completing with success
status copies exactly `req->actual` bytes of the request buffer into
the device receive buffer and records `data_size = req->actual`; the
buffer beyond the copied prefix is untouched. -/
theorem complete_success_copies_actual (dev : ZeroDev) (req : UsbRequest)
    (hst : req.status = 0) (hlen : req.actual ≤ req.buf.length) :
    (source_sink_complete true dev req).1.data_size = req.actual ∧
    (source_sink_complete true dev req).1.data.take req.actual =
      req.buf.take req.actual ∧
    (source_sink_complete true dev req).1.data.drop req.actual =
      dev.data.drop req.actual := by
  have hl : (req.buf.take req.actual).length = req.actual := by
    simp [hlen]
  rw [complete_success_eq true dev req hst]
  exact ⟨rfl, List.take_left' hl, List.drop_left' hl⟩

set_option maxRecDepth 4000 in
/-- C3 witness: a success completion with actual length 64 into a
128-capacity device buffer records exactly 64 as the visible data
length (not 128, not 0) and makes the 64 received bytes the visible
prefix. -/
theorem complete_success_copies_actual_witness :
    (({ buf := List.replicate 128 5, length := 128, actual := 64,
        status := 0 } : UsbRequest).status = 0 ∧
      ({ buf := List.replicate 128 5, length := 128, actual := 64,
         status := 0 } : UsbRequest).actual ≤
        ({ buf := List.replicate 128 5, length := 128, actual := 64,
           status := 0 } : UsbRequest).buf.length) ∧
    ((source_sink_complete true
        { out_ep := some 1, epEnabled := true,
          data := List.replicate 128 0, data_size := 0 }
        { buf := List.replicate 128 5, length := 128, actual := 64,
          status := 0 }).1.data_size =
      ({ buf := List.replicate 128 5, length := 128, actual := 64,
         status := 0 } : UsbRequest).actual ∧
      (source_sink_complete true
        { out_ep := some 1, epEnabled := true,
          data := List.replicate 128 0, data_size := 0 }
        { buf := List.replicate 128 5, length := 128, actual := 64,
          status := 0 }).1.data.take 64 =
        (List.replicate 128 5).take 64 ∧
      (source_sink_complete true
        { out_ep := some 1, epEnabled := true,
          data := List.replicate 128 0, data_size := 0 }
        { buf := List.replicate 128 5, length := 128, actual := 64,
          status := 0 }).1.data.drop 64 =
        (List.replicate 128 0).drop 64) :=
  ⟨⟨by decide, by decide⟩,
    complete_success_copies_actual
      { out_ep := some 1, epEnabled := true,
        data := List.replicate 128 0, data_size := 0 }
      { buf := List.replicate 128 5, length := 128, actual := 64,
        status := 0 } (by decide) (by decide)⟩

/-- C4: every completion with a non-success status leaves the device
context (receive buffer, recorded length, endpoint reference) exactly
as it was; the only effects are logging, the single free and the
single wake. -/
theorem complete_error_preserves_device (epIsOut : Bool) (dev : ZeroDev)
    (req : UsbRequest) (hst : req.status ≠ 0) :
    (source_sink_complete epIsOut dev req).1 = dev ∧
    ∀ e ∈ (source_sink_complete epIsOut dev req).2,
      e = Effect.log ∨ e = Effect.freeReq ∨ e = Effect.wake := by
  rw [complete_error_eq epIsOut dev req hst]
  dsimp only
  refine ⟨rfl, ?_⟩
  split_ifs <;> decide

/-- C4 witness: a shutdown (disconnect) completion at a device holding
two recorded bytes leaves the device context unchanged and produces
only log, free and wake effects. -/
theorem complete_error_preserves_device_witness :
    ({ buf := [1, 2], length := 2, actual := 0,
       status := -ESHUTDOWN } : UsbRequest).status ≠ 0 ∧
    ((source_sink_complete false
        { out_ep := some 1, epEnabled := true, data := [9, 9], data_size := 2 }
        { buf := [1, 2], length := 2, actual := 0, status := -ESHUTDOWN }).1 =
      { out_ep := some 1, epEnabled := true, data := [9, 9], data_size := 2 } ∧
      ∀ e ∈ (source_sink_complete false
        { out_ep := some 1, epEnabled := true, data := [9, 9], data_size := 2 }
        { buf := [1, 2], length := 2, actual := 0, status := -ESHUTDOWN }).2,
        e = Effect.log ∨ e = Effect.freeReq ∨ e = Effect.wake) :=
  ⟨by decide,
    complete_error_preserves_device false
      { out_ep := some 1, epEnabled := true, data := [9, 9], data_size := 2 }
      { buf := [1, 2], length := 2, actual := 0, status := -ESHUTDOWN }
      (by decide)⟩

/-- C8: when endpoint activation fails (`usb_ep_enable` returns a
nonzero error), `zero_set_config` immediately forces
`zero_reset_config`: the device ends with the endpoint reference
cleared and disabled, and the enable error is returned upward; when
activation succeeds the configuration is fully entered (endpoint
enabled, result 0) — the transition is atomic. -/
theorem set_config_rollback_on_failure (e : Int) (dev : ZeroDev) (n : Nat)
    (he : e ≠ 0) :
    (zero_set_config e dev n).1 = e ∧
    (zero_set_config e dev n).2.out_ep = none ∧
    (zero_set_config e dev n).2.epEnabled = false ∧
    zero_set_config 0 dev n = (0, { dev with epEnabled := true }) := by
  unfold zero_set_config set_loopback_config zero_reset_config
  simp [he]

/-- C8 witness: with `usb_ep_enable` failing with `-EINVAL`, the
transition rolls back (no endpoint reference, disabled, error
returned), while an enable result of 0 fully enters the
configuration. -/
theorem set_config_rollback_on_failure_witness :
    (-EINVAL : Int) ≠ 0 ∧
    ((zero_set_config (-EINVAL)
        { out_ep := some 1, epEnabled := false,
          data := [0], data_size := 0 } 2).1 = -EINVAL ∧
      (zero_set_config (-EINVAL)
        { out_ep := some 1, epEnabled := false,
          data := [0], data_size := 0 } 2).2.out_ep = none ∧
      (zero_set_config (-EINVAL)
        { out_ep := some 1, epEnabled := false,
          data := [0], data_size := 0 } 2).2.epEnabled = false ∧
      zero_set_config 0
        { out_ep := some 1, epEnabled := false,
          data := [0], data_size := 0 } 2 =
        (0, { out_ep := some 1, epEnabled := true,
              data := [0], data_size := 0 })) :=
  ⟨by decide,
    set_config_rollback_on_failure (-EINVAL)
      { out_ep := some 1, epEnabled := false, data := [0], data_size := 0 } 2
      (by decide)⟩

/-- C10: the disconnect callback of this driver is a no-op apart from
logging: run on a configured device holding an endpoint reference, it
leaves the endpoint reference held and the endpoint enabled — it does
not transition the device to the unconfigured state, although the
compiled-out teardown block shows that was the intent. -/
theorem disconnect_leaves_configuration :
    (zero_disconnect
      { out_ep := some 1, epEnabled := true,
        data := List.replicate 128 0, data_size := 0 }).1 =
      { out_ep := some 1, epEnabled := true,
        data := List.replicate 128 0, data_size := 0 } ∧
    (zero_disconnect
      { out_ep := some 1, epEnabled := true,
        data := List.replicate 128 0, data_size := 0 }).1.out_ep = some 1 ∧
    (zero_disconnect
      { out_ep := some 1, epEnabled := true,
        data := List.replicate 128 0, data_size := 0 }).1.epEnabled = true ∧
    (zero_disconnect
      { out_ep := some 1, epEnabled := true,
        data := List.replicate 128 0, data_size := 0 }).2 = [Effect.log] := by
  exact ⟨rfl, rfl, rfl, rfl⟩

/-- C1 counterexample: a `SET_CONFIGURATION` request with the
unsupported value 5 (endpoint enable succeeding) does NOT deactivate:
the dispatcher still activates the endpoint, the device ends with the
endpoint enabled and the endpoint reference held (configured, not
unconfigured), and the computed result is 0. -/
theorem set_config_value5_activates :
    (zero_setup
      { bcdDevice := 0, bMaxPacketSize0 := 16, epAddr := 1, epMaxPacket := 64,
        manufacturer := [], enableResult := 0, queueResult := 0 }
      { out_ep := some 1, epEnabled := false, data := [0], data_size := 0 }
      { bRequestType := 0, bRequest := USB_REQ_SET_CONFIGURATION, wValue := 5,
        wIndex := 0, wLength := 0 }).dev.epEnabled = true ∧
    (zero_setup
      { bcdDevice := 0, bMaxPacketSize0 := 16, epAddr := 1, epMaxPacket := 64,
        manufacturer := [], enableResult := 0, queueResult := 0 }
      { out_ep := some 1, epEnabled := false, data := [0], data_size := 0 }
      { bRequestType := 0, bRequest := USB_REQ_SET_CONFIGURATION, wValue := 5,
        wIndex := 0, wLength := 0 }).dev.out_ep = some 1 ∧
    (zero_setup
      { bcdDevice := 0, bMaxPacketSize0 := 16, epAddr := 1, epMaxPacket := 64,
        manufacturer := [], enableResult := 0, queueResult := 0 }
      { out_ep := some 1, epEnabled := false, data := [0], data_size := 0 }
      { bRequestType := 0, bRequest := USB_REQ_SET_CONFIGURATION, wValue := 5,
        wIndex := 0, wLength := 0 }).computed = 0 := by
  decide

/-- C1 amended: the dispatcher ignores the requested configuration
value entirely.  Every host-to-device `SET_CONFIGURATION` — whatever
`wValue` is, 2, 0 or 5 — behaves the same: it attempts to activate the
bulk endpoint; on success the device is configured (endpoint enabled)
with result 0, and on failure the endpoint reference is cleared
(unconfigured) and the enable error is returned. -/
theorem set_config_ignores_value (env : Env) (dev : ZeroDev) (n m : Nat) :
    zero_setup env dev
        { bRequestType := 0, bRequest := USB_REQ_SET_CONFIGURATION, wValue := n,
          wIndex := 0, wLength := 0 } =
      zero_setup env dev
        { bRequestType := 0, bRequest := USB_REQ_SET_CONFIGURATION, wValue := m,
          wIndex := 0, wLength := 0 } ∧
    zero_set_config env.enableResult dev n =
      zero_set_config env.enableResult dev m ∧
    zero_set_config env.enableResult dev n =
      (if env.enableResult = 0 then ((0 : Int), { dev with epEnabled := true })
       else (env.enableResult, zero_reset_config dev)) := by
  refine ⟨rfl, rfl, ?_⟩
  rcases eq_or_ne env.enableResult 0 with h | h <;>
    simp [zero_set_config, set_loopback_config, h]

set_option maxRecDepth 4000 in
/-- C9 counterexample: a read requesting 1 byte, after a successful
completion delivering 64 bytes, returns 64 — more than the requested
count — refuting "returns at most N received bytes". -/
theorem read_returns_more_than_count :
    (usb_zero_read
      { out_ep := some 1, epEnabled := true,
        data := List.replicate 128 0, data_size := 0 }
      1 true
      { buf := List.replicate 128 5, length := 128, actual := 64, status := 0 }
      false).1.ret = 64 ∧
    ¬((usb_zero_read
      { out_ep := some 1, epEnabled := true,
        data := List.replicate 128 0, data_size := 0 }
      1 true
      { buf := List.replicate 128 5, length := 128, actual := 64, status := 0 }
      false).1.ret ≤ 1) := by
  decide

/-- C9 amended: the blocking read triggers exactly one
`start_receive`, waits for the completion, and then returns ALL
currently recorded bytes (`dev->data_size`, up to the 128-byte buffer
capacity) regardless of the requested count — the count argument is
never used, so the return may exceed it — or `-EFAULT` when copying
to the caller fails. -/
theorem read_ignores_count (dev : ZeroDev) (count count2 : Nat)
    (epIsOut : Bool) (req : UsbRequest) (copyFails : Bool) :
    usb_zero_read dev count epIsOut req copyFails =
      usb_zero_read dev count2 epIsOut req copyFails ∧
    (usb_zero_read dev count epIsOut req copyFails).1.startReceives = 1 ∧
    (usb_zero_read dev count epIsOut req copyFails).1.ret =
      (if copyFails then -EFAULT
       else ((source_sink_complete epIsOut dev req).1.data_size : Int)) ∧
    (usb_zero_read dev count epIsOut req copyFails).1.copied =
      (source_sink_complete epIsOut dev req).1.data.take
        (source_sink_complete epIsOut dev req).1.data_size := by
  constructor
  · unfold usb_zero_read
    rw [if_neg (Nat.not_lt_zero count), if_neg (Nat.not_lt_zero count2)]
  refine ⟨?_, ?_, ?_⟩ <;>
    · unfold usb_zero_read
      rw [if_neg (Nat.not_lt_zero count)]
      cases copyFails <;> rfl

/-- Evaluation of `zero_setup` on `GET_DESCRIPTOR` for the device
descriptor (`wValue` high byte `USB_DT_DEVICE`). -/
lemma zero_setup_device_eq (env : Env) (dev : ZeroDev) (L : Nat) :
    zero_setup env dev
        { bRequestType := USB_DIR_IN, bRequest := USB_REQ_GET_DESCRIPTOR,
          wValue := 0x0100, wIndex := 0, wLength := L } =
      { computed := ((min L 18 : Nat) : Int),
        submitted := some { sent := (device_desc_bytes env).take (min L 18),
                            length := min L 18,
                            zero := decide (min L 18 < L) },
        ret := env.queueResult,
        dev := dev } := by
  have hdd : (device_desc_bytes env).length = 18 := by
    simp [device_desc_bytes, le16]
  unfold zero_setup setup_value
  norm_num [USB_DIR_IN, USB_REQ_GET_DESCRIPTOR, USB_DT_DEVICE,
    Int.natCast_nonneg, List.take_take]
  rw [hdd]
  constructor <;> omega

/-- C7: every `GET_DESCRIPTOR` request for the device descriptor with
host-side maximum length `L` submits a data stage of exactly
`min L 18` bytes equal to the first `min L 18` bytes of the 18-byte
device descriptor (so `L = 8` yields exactly the descriptor's first
8 bytes). -/
theorem get_device_descriptor_truncates (env : Env) (dev : ZeroDev) (L : Nat) :
    (∃ ds, (zero_setup env dev
        { bRequestType := USB_DIR_IN, bRequest := USB_REQ_GET_DESCRIPTOR,
          wValue := 0x0100, wIndex := 0, wLength := L }).submitted = some ds ∧
      ds.length = min L 18 ∧
      ds.sent = (device_desc_bytes env).take (min L 18) ∧
      ds.sent.length = min L 18) ∧
    (device_desc_bytes env).length = 18 := by
  have hdd : (device_desc_bytes env).length = 18 := by
    simp [device_desc_bytes, le16]
  refine ⟨⟨{ sent := (device_desc_bytes env).take (min L 18),
             length := min L 18, zero := decide (min L 18 < L) },
           ?_, rfl, rfl, ?_⟩, hdd⟩
  · rw [zero_setup_device_eq env dev L]
  · rw [List.length_take, hdd]
    omega

/-- Evaluation of `config_buf`: the serialized configuration is always
25 bytes (9 header + 9 interface + 7 endpoint, well under the 256-byte
buffer), with the header's descriptor-type byte overwritten by the
requested type. -/
lemma config_buf_eq (env : Env) (dtype index : Nat) :
    config_buf env dtype index =
      ((25 : Int),
        (config_header_bytes USB_DT_CONFIG 25 ++
          (loopback_intf_bytes ++ fs_sink_desc_bytes env)).set 1 dtype) := by
  have hrest : (loopback_intf_bytes ++ fs_sink_desc_bytes env).length = 16 := by
    simp [loopback_intf_bytes, fs_sink_desc_bytes, le16]
  simp only [config_buf, usb_gadget_config_buf]
  rw [hrest]
  norm_num [USB_BUFSIZ]

/-- Evaluation of `zero_setup` on `GET_DESCRIPTOR` for the
configuration descriptor (`wValue` high byte `USB_DT_CONFIG`). -/
lemma zero_setup_config_eq (env : Env) (dev : ZeroDev) (L : Nat) :
    zero_setup env dev
        { bRequestType := USB_DIR_IN, bRequest := USB_REQ_GET_DESCRIPTOR,
          wValue := 0x0200, wIndex := 0, wLength := L } =
      { computed := ((min L 25 : Nat) : Int),
        submitted := some
          { sent := ((config_header_bytes USB_DT_CONFIG 25 ++
              (loopback_intf_bytes ++ fs_sink_desc_bytes env)).set 1
                USB_DT_CONFIG).take (min L 25),
            length := min L 25,
            zero := decide (min L 25 < L) },
        ret := env.queueResult, dev := dev } := by
  have h9 : (config_header_bytes 2 25).length = 9 := by
    simp [config_header_bytes, le16]
  have hi : loopback_intf_bytes.length = 9 := by
    simp [loopback_intf_bytes]
  have he : (fs_sink_desc_bytes env).length = 7 := by
    simp [fs_sink_desc_bytes, le16]
  unfold zero_setup setup_value
  norm_num [USB_DIR_IN, USB_REQ_GET_DESCRIPTOR, USB_DT_DEVICE, USB_DT_CONFIG,
    config_buf_eq, Int.natCast_nonneg, Int.toNat_natCast, List.take_eq_take]
  rw [h9, hi, he]
  constructor <;> omega

/-- C6: a `GET_DESCRIPTOR` request for the configuration descriptor
with requested maximum length at least 25 submits exactly 25 bytes:
the 9-byte configuration header followed by the 9-byte interface and
the 7-byte endpoint descriptor in the declared order, the header's
total-length field (bytes 2 and 3, little endian) holding 25 computed
as the running sum of the emitted descriptor lengths, and the header's
descriptor-type byte overwritten with the caller-requested type (for
every requested type). -/
theorem get_config_descriptor_running_sum (env : Env) (dev : ZeroDev)
    (L : Nat) (hL : 25 ≤ L) :
    ∃ ds, (zero_setup env dev
        { bRequestType := USB_DIR_IN, bRequest := USB_REQ_GET_DESCRIPTOR,
          wValue := 0x0200, wIndex := 0, wLength := L }).submitted = some ds ∧
      ds.length = 25 ∧
      ds.sent.length = 25 ∧
      ds.sent = config_header_bytes USB_DT_CONFIG
          (9 + (loopback_intf_bytes ++ fs_sink_desc_bytes env).length) ++
          (loopback_intf_bytes ++ fs_sink_desc_bytes env) ∧
      loopback_intf_bytes.length = 9 ∧
      (fs_sink_desc_bytes env).length = 7 ∧
      ds.sent.get? 1 = some USB_DT_CONFIG ∧
      ds.sent.get? 2 = some 25 ∧ ds.sent.get? 3 = some 0 ∧
      (∀ t i, ((config_buf env t i).2).get? 1 = some t) := by
  have hmin : min L 25 = 25 := Nat.min_eq_right hL
  have hrest : (loopback_intf_bytes ++ fs_sink_desc_bytes env).length = 16 := by
    simp [loopback_intf_bytes, fs_sink_desc_bytes, le16]
  have hset : ((config_header_bytes USB_DT_CONFIG 25 ++
      (loopback_intf_bytes ++ fs_sink_desc_bytes env)).set 1 USB_DT_CONFIG) =
      config_header_bytes USB_DT_CONFIG 25 ++
        (loopback_intf_bytes ++ fs_sink_desc_bytes env) := by
    simp [config_header_bytes, le16, USB_DT_CONFIG]
  have hblen : (config_header_bytes USB_DT_CONFIG 25 ++
      (loopback_intf_bytes ++ fs_sink_desc_bytes env)).length = 25 := by
    rw [List.length_append, hrest]
    simp [config_header_bytes, le16]
  rw [zero_setup_config_eq env dev L]
  refine ⟨_, rfl, hmin, ?_, ?_, by simp [loopback_intf_bytes],
    by simp [fs_sink_desc_bytes, le16], ?_, ?_, ?_, ?_⟩
  · show (((config_header_bytes USB_DT_CONFIG 25 ++
      (loopback_intf_bytes ++ fs_sink_desc_bytes env)).set 1
        USB_DT_CONFIG).take (min L 25)).length = 25
    rw [hmin, hset, List.take_of_length_le hblen.le]
    exact hblen
  · show ((config_header_bytes USB_DT_CONFIG 25 ++
      (loopback_intf_bytes ++ fs_sink_desc_bytes env)).set 1
        USB_DT_CONFIG).take (min L 25) = _
    rw [hmin, hset, List.take_of_length_le hblen.le, hrest]
  · show (((config_header_bytes USB_DT_CONFIG 25 ++
      (loopback_intf_bytes ++ fs_sink_desc_bytes env)).set 1
        USB_DT_CONFIG).take (min L 25)).get? 1 = some USB_DT_CONFIG
    rw [hmin, hset, List.take_of_length_le hblen.le]
    rfl
  · show (((config_header_bytes USB_DT_CONFIG 25 ++
      (loopback_intf_bytes ++ fs_sink_desc_bytes env)).set 1
        USB_DT_CONFIG).take (min L 25)).get? 2 = some 25
    rw [hmin, hset, List.take_of_length_le hblen.le]
    rfl
  · show (((config_header_bytes USB_DT_CONFIG 25 ++
      (loopback_intf_bytes ++ fs_sink_desc_bytes env)).set 1
        USB_DT_CONFIG).take (min L 25)).get? 3 = some 0
    rw [hmin, hset, List.take_of_length_le hblen.le]
    rfl
  · intro t i
    rw [config_buf_eq env t i]
    rfl

/-- C6 witness: a concrete environment and a request with maximum
length 255 produce the 25-byte configuration descriptor with
total-length field 25. -/
theorem get_config_descriptor_running_sum_witness :
    (25 : Nat) ≤ 255 ∧
    ∃ ds, (zero_setup
        { bcdDevice := 0x9999, bMaxPacketSize0 := 16, epAddr := 1,
          epMaxPacket := 64, manufacturer := [], enableResult := 0,
          queueResult := 0 }
        { out_ep := some 1, epEnabled := false, data := [0], data_size := 0 }
        { bRequestType := USB_DIR_IN, bRequest := USB_REQ_GET_DESCRIPTOR,
          wValue := 0x0200, wIndex := 0, wLength := 255 }).submitted = some ds ∧
      ds.length = 25 ∧
      ds.sent.length = 25 ∧
      ds.sent = config_header_bytes USB_DT_CONFIG
          (9 + (loopback_intf_bytes ++ fs_sink_desc_bytes
            { bcdDevice := 0x9999, bMaxPacketSize0 := 16, epAddr := 1,
              epMaxPacket := 64, manufacturer := [], enableResult := 0,
              queueResult := 0 }).length) ++
          (loopback_intf_bytes ++ fs_sink_desc_bytes
            { bcdDevice := 0x9999, bMaxPacketSize0 := 16, epAddr := 1,
              epMaxPacket := 64, manufacturer := [], enableResult := 0,
              queueResult := 0 }) ∧
      loopback_intf_bytes.length = 9 ∧
      (fs_sink_desc_bytes
        { bcdDevice := 0x9999, bMaxPacketSize0 := 16, epAddr := 1,
          epMaxPacket := 64, manufacturer := [], enableResult := 0,
          queueResult := 0 }).length = 7 ∧
      ds.sent.get? 1 = some USB_DT_CONFIG ∧
      ds.sent.get? 2 = some 25 ∧ ds.sent.get? 3 = some 0 ∧
      (∀ t i, ((config_buf
        { bcdDevice := 0x9999, bMaxPacketSize0 := 16, epAddr := 1,
          epMaxPacket := 64, manufacturer := [], enableResult := 0,
          queueResult := 0 } t i).2).get? 1 = some t) :=
  ⟨by decide,
    get_config_descriptor_running_sum
      { bcdDevice := 0x9999, bMaxPacketSize0 := 16, epAddr := 1,
        epMaxPacket := 64, manufacturer := [], enableResult := 0,
        queueResult := 0 }
      { out_ep := some 1, epEnabled := false, data := [0], data_size := 0 }
      255 (by decide)⟩

/-- The result component of `zero_set_config` depends only on the
enable outcome. -/
lemma zero_set_config_fst (e : Int) (dev : ZeroDev) (n : Nat) :
    (zero_set_config e dev n).1 = if e = 0 then 0 else e := by
  rcases eq_or_ne e 0 with h | h <;>
    simp [zero_set_config, set_loopback_config, h]

/-- Whenever the dispatch value is non-negative it is already bounded
by the host's requested maximum length (every branch computes a `min`
with `wLength`, or 0 for a successful configuration change). -/
lemma setup_value_le (env : Env) (dev : ZeroDev) (ctrl : CtrlRequest)
    (he : env.enableResult ≤ 0) :
    0 ≤ (setup_value env dev ctrl).1 →
      (setup_value env dev ctrl).1.toNat ≤ ctrl.wLength := by
  unfold setup_value
  split_ifs <;> intro h <;> dsimp only at h ⊢ <;>
    first
      | (exact absurd h (by assumption))
      | (norm_num [EOPNOTSUPP] at h
         done)
      | (simp only [Int.toNat_natCast]
         omega)
      | (rw [zero_set_config_fst] at h ⊢
         rcases eq_or_ne env.enableResult 0 with h0 | h0 <;>
           simp [h0] at h ⊢ <;> omega)

/-- C5: response formulation of the dispatcher.  When the computed
result is negative no data stage is submitted (the negative value is
returned, stalling ep0); when it is a non-negative byte count `n`, a
data stage of exactly `n` bytes is submitted — the response buffer
truncated to `n`, with `n` never exceeding the host's requested
maximum length — and the short-packet indicator is set precisely when
`n` is less than the requested length. -/
theorem setup_response_formulation (env : Env) (dev : ZeroDev)
    (ctrl : CtrlRequest) (he : env.enableResult ≤ 0) :
    ((zero_setup env dev ctrl).computed < 0 →
      (zero_setup env dev ctrl).submitted = none ∧
      (zero_setup env dev ctrl).ret = (zero_setup env dev ctrl).computed) ∧
    (0 ≤ (zero_setup env dev ctrl).computed →
      ∃ ds, (zero_setup env dev ctrl).submitted = some ds ∧
        (ds.length : Int) = (zero_setup env dev ctrl).computed ∧
        ds.length ≤ ctrl.wLength ∧
        (ds.zero = true ↔ ds.length < ctrl.wLength) ∧
        ds.sent = (setup_value env dev ctrl).2.1.take ds.length) := by
  simp only [zero_setup]
  rcases le_or_lt 0 (setup_value env dev ctrl).1 with h | h
  · rw [if_pos h]
    constructor
    · intro hlt
      exact absurd hlt (not_lt.mpr h)
    · intro _
      refine ⟨_, rfl, Int.toNat_of_nonneg h, setup_value_le env dev ctrl he h,
        ?_, rfl⟩
      simp
  · rw [if_neg (not_le.mpr h)]
    constructor
    · intro _
      exact ⟨rfl, rfl⟩
    · intro h0
      exact absurd h0 (not_le.mpr h)

/-- C5 witness: with the sample environment (enable failing, so the
hypothesis holds) and a device-descriptor request of maximum length 8,
the response formulation property holds at that concrete input. -/
theorem setup_response_formulation_witness :
    sampleEnv.enableResult ≤ 0 ∧
    (((zero_setup sampleEnv sampleDev sampleCtrl).computed < 0 →
        (zero_setup sampleEnv sampleDev sampleCtrl).submitted = none ∧
        (zero_setup sampleEnv sampleDev sampleCtrl).ret =
          (zero_setup sampleEnv sampleDev sampleCtrl).computed) ∧
      (0 ≤ (zero_setup sampleEnv sampleDev sampleCtrl).computed →
        ∃ ds, (zero_setup sampleEnv sampleDev sampleCtrl).submitted = some ds ∧
          (ds.length : Int) = (zero_setup sampleEnv sampleDev sampleCtrl).computed ∧
          ds.length ≤ sampleCtrl.wLength ∧
          (ds.zero = true ↔ ds.length < sampleCtrl.wLength) ∧
          ds.sent = (setup_value sampleEnv sampleDev sampleCtrl).2.1.take ds.length)) :=
  ⟨by decide, setup_response_formulation sampleEnv sampleDev sampleCtrl (by decide)⟩

end GadgetZero
